import Mathlib

/-!
Verification development for the realtime chat backend
(backend/chat/consumers.py, backend/chat/constants.py, backend/users/api.py).

The Python code is shallowly embedded: the stateful cache (Django cache
holding one dict per presence class and one dict per rate-limit key) is
modelled as explicit association lists with Python-dict semantics
(lookup finds the stored binding, assignment replaces in place or appends,
pop removes the binding).  Timestamps (time.time(), time.monotonic()) are
modelled as integers; all comparisons in the source are order comparisons,
so integer time loses nothing relevant to the claims.
-/

namespace ChatCore

/-- Python dict read, d.get(k): first binding for the key (our stores keep
keys unique, mirroring dict semantics). -/
def lookupKey {α : Type} : List (String × α) → String → Option α
  | [], _ => none
  | (k, v) :: rest, key => if k = key then some v else lookupKey rest key

/-- Python dict write, d[k] = v: replace the existing binding in place,
else append a fresh binding. -/
def setKey {α : Type} : List (String × α) → String → α → List (String × α)
  | [], key, v => [(key, v)]
  | (k, w) :: rest, key, v =>
    if k = key then (k, v) :: rest else (k, w) :: setKey rest key v

/-- Python dict removal, d.pop(k, None): drop the binding for the key. -/
def popKey {α : Type} : List (String × α) → String → List (String × α)
  | [], _ => []
  | (k, w) :: rest, key => if k = key then rest else (k, w) :: popKey rest key

/-- Python dict read honouring last-wins duplicate keys, as produced by
json.loads on an object with repeated keys. -/
def lookupKeyLast {α : Type} (l : List (String × α)) (k : String) : Option α :=
  lookupKey l.reverse k

/-- The ASCII part of the \x5cs class of the Python regexes used in
django.utils.text.slugify: space, tab, newline, carriage return,
vertical tab, form feed, and the separator controls \x5cx1c-\x5cx1f.
Unicode-only whitespace never survives the ASCII fold that precedes
these regexes, so this is the whole class there. -/
def isPySpace (c : Char) : Bool :=
  c = ' ' || c = '\t' || c = '\n' || c = '\r' || c.toNat = 11 || c.toNat = 12 ||
    (28 ≤ c.toNat && c.toNat ≤ 31)

/-- ASCII word character (regex \x5cw restricted to ASCII, which is all that
remains after slugify's ASCII fold). -/
def isWordCharAscii (c : Char) : Bool :=
  ('a' ≤ c && c ≤ 'z') || ('A' ≤ c && c ≤ 'Z') || ('0' ≤ c && c ≤ '9') || c = '_'

/-- Characters kept by slugify's second step (word chars, whitespace, hyphen). -/
def isKeptSlugChar (c : Char) : Bool :=
  isWordCharAscii c || isPySpace c || c = '-'

/-- Characters stripped from both ends by slugify's final .strip of hyphen
and underscore. -/
def isDashOrUnderscore (c : Char) : Bool :=
  c = '-' || c = '_'

/-- slugify's third step: collapse every run of hyphens/whitespace into a
single hyphen (the regex substitution of the class hyphen-or-space,
one or more, by a hyphen).  The flag records whether the previous kept
character already closed such a run. -/
def collapseGo : Bool → List Char → List Char
  | _, [] => []
  | inRun, c :: rest =>
    if c = '-' || isPySpace c then
      if inRun then collapseGo true rest else '-' :: collapseGo true rest
    else
      c :: collapseGo false rest

/-- Strip characters satisfying p from both ends of a list (Python
str.strip with a character class). -/
def stripBoth (p : Char → Bool) (l : List Char) : List Char :=
  ((l.dropWhile p).reverse.dropWhile p).reverse

/-- Model of django.utils.text.slugify (allow_unicode=False) on the char
list of the input: NFKD-then-ASCII-encode is modelled as dropping
non-ASCII characters (exact for inputs without exotic compatibility
decompositions; exact in particular on all ASCII inputs, which is the
only regime the theorems below rely on), then lowercase, keep word
chars/whitespace/hyphens, collapse hyphen-or-space runs to one hyphen,
and strip hyphens/underscores from both ends. -/
def slugifyList (l : List Char) : List Char :=
  stripBoth isDashOrUnderscore
    (collapseGo false
      (((l.filter (fun c => c.toNat < 128)).map Char.toLower).filter isKeptSlugChar))

/-- String-level slugify model. -/
def slugifyStr (s : String) : String :=
  String.mk (slugifyList s.data)

/-- Character class of the room-slug regex [A-Za-z0-9_-]. -/
def isSlugChar (c : Char) : Bool :=
  ('A' ≤ c && c ≤ 'Z') || ('a' ≤ c && c ≤ 'z') || ('0' ≤ c && c ≤ '9') || c = '_' || c = '-'

/-- The regex body [A-Za-z0-9_-]{3,50} as a full-list match. -/
def slugCore (l : List Char) : Bool :=
  decide (3 ≤ l.length) && decide (l.length ≤ 50) && l.all isSlugChar

/-- Python re.match of the configured default pattern
caret [A-Za-z0-9_-]{3,50} dollar: the dollar anchor of Python regexes also
matches just before a single trailing newline, so a match succeeds on the
bare core or on the core followed by one newline. -/
def matchesSlugPattern (s : String) : Bool :=
  slugCore s.data ||
    (match s.data.getLast? with
     | some c => decide (c = '\n') && slugCore s.data.dropLast
     | none => false)

/-- chat._is_valid_room_slug with the default configured pattern
(settings set CHAT_ROOM_SLUG_REGEX to exactly this default). -/
def isValidRoomSlug (s : String) : Bool :=
  matchesSlugPattern s

/-- chat.constants.PUBLIC_ROOM_SLUG. -/
def PUBLIC_ROOM_SLUG : String := "public"

/-- chat.constants.CHAT_CLOSE_IDLE_CODE. -/
def CHAT_CLOSE_IDLE_CODE : Int := 4001

/-- chat.constants.PRESENCE_CLOSE_IDLE_CODE. -/
def PRESENCE_CLOSE_IDLE_CODE : Int := 4000

/-- The room-group naming of ChatConsumer.connect lines 62-66:
slugify the room name, fall back to the sha1 hex digest of the room name
when slugify yields the empty string, trim to 80 characters, and put the
group in the chat_ namespace.  The hash itself is a stdlib collaborator
(hashlib.sha1), so it is passed in as a function; the theorems only use
that it is a function (hence deterministic) producing 40-character hex
digests. -/
def groupName (sha1hex : String → String) (room : String) : String :=
  let n := slugifyStr room
  let n2 := if n = "" then sha1hex room else n
  "chat_" ++ String.mk (n2.data.take 80)

/-- Outcome of ChatConsumer.connect: close() on invalid slug, a refusal
frame for an unauthenticated client on a private room, or acceptance
joined to the given room group. -/
inductive ConnectResult where
  | closedConn
  | refusedConn
  | accepted (group : String)
deriving DecidableEq, Repr

/-- ChatConsumer.connect lines 50-73 as a decision function of the
authentication flag and the requested room name. -/
def chatConnect (sha1hex : String → String) (authed : Bool) (room : String) :
    ConnectResult :=
  if room ≠ PUBLIC_ROOM_SLUG ∧ isValidRoomSlug room = false then .closedConn
  else if authed = false ∧ room ≠ PUBLIC_ROOM_SLUG then .refusedConn
  else .accepted (groupName sha1hex room)

/-- JSON values as returned by json.loads. -/
inductive Json where
  | null
  | bool (b : Bool)
  | num (n : Int)
  | str (s : String)
  | arr (elems : List Json)
  | obj (fields : List (String × Json))

/-- Python dict .get(key, default) on a parsed JSON object
(duplicate keys: last one wins, as json.loads builds the dict). -/
def jsonGet (fields : List (String × Json)) (key : String) (dflt : Json) : Json :=
  match lookupKeyLast fields key with
  | some v => v
  | none => dflt

/-- The full Python str.isspace() character set, which is exactly what
str.strip() with no argument removes: ASCII whitespace and separator
controls, next line (U+0085), no-break space (U+00A0), ogham space mark
(U+1680), the typographic spaces U+2000-U+200A, line and paragraph
separators (U+2028, U+2029), narrow no-break space (U+202F), medium
mathematical space (U+205F), and ideographic space (U+3000). -/
def isPyStripSpace (c : Char) : Bool :=
  isPySpace c || c.toNat = 133 || c.toNat = 160 || c.toNat = 5760 ||
    (8192 ≤ c.toNat && c.toNat ≤ 8202) || c.toNat = 8232 || c.toNat = 8233 ||
    c.toNat = 8239 || c.toNat = 8287 || c.toNat = 12288

/-- Python str.strip() with no argument: remove str.isspace() characters
from both ends. -/
def pyStrip (s : String) : String :=
  String.mk (stripBoth isPyStripSpace s.data)

/-- Frames ChatConsumer sends to its own client. -/
inductive OutFrame where
  | errTooLong
  | errRateLimited
  | chat (message username profilePic room : String)
deriving DecidableEq, Repr

/-- A row persisted through Message.objects.create by save_message. -/
structure StoredMsg where
  content : String
  username : String
  room : String
deriving DecidableEq, Repr

/-- An event published to the room group via channel_layer.group_send. -/
inductive GroupEvent where
  | chatMessage (message username profilePic room : String)
deriving DecidableEq, Repr

/-- Observable effects of one invocation of a consumer handler.
closedConn records an explicit self.close() by the handler; raised
records an exception escaping the handler uncaught — Channels catches
only StopConsumer, so a raised handler exception propagates to the ASGI
server, which terminates the websocket. -/
structure Effects where
  activityTouched : Bool
  sent : List OutFrame
  stored : List StoredMsg
  published : List GroupEvent
  closedConn : Bool
  raised : Bool
deriving DecidableEq, Repr

/-- ChatConsumer.receive refreshes the activity timestamp on entry
(line 106) before any validation, so even a dropped frame touches it;
a dropped frame produces no other effect. -/
def recvNoOp : Effects :=
  { activityTouched := true, sent := [], stored := [], published := [],
    closedConn := false, raised := false }

/-- ChatConsumer.receive lines 99-149.  The frame argument is the result of
json.loads (none on a JSONDecodeError, which line 109 catches and
silently drops).  A parsed value that is not an object makes the .get
attribute access on line 112 raise AttributeError, which nothing in the
consumer catches: no effect instruction runs, but the exception escapes
the handler (raised := true) and the server terminates the connection.
The activity timestamp was already refreshed on line 106 before the
raise.  authed and limited are the results of the user.is_authenticated
and _rate_limited collaborator calls. -/
def receiveChat (maxLen : Int) (authed limited : Bool)
    (username profileUrl room : String) (frame : Option Json) : Effects :=
  match frame with
  | none => recvNoOp
  | some (Json.obj fields) =>
    match jsonGet fields "message" (Json.str "") with
    | Json.str raw =>
      let m := pyStrip raw
      if m = "" then recvNoOp
      else if maxLen < (m.length : Int) then { recvNoOp with sent := [.errTooLong] }
      else if authed = false then recvNoOp
      else if limited then { recvNoOp with sent := [.errRateLimited] }
      else { recvNoOp with
             stored := [⟨m, username, room⟩],
             published := [.chatMessage m username profileUrl room] }
    | _ => recvNoOp
  | some _ => { recvNoOp with raised := true }

/-- ChatConsumer.chat_message lines 151-168: refresh activity, forward the
event verbatim to the client. -/
def onChatMessage (message username profilePic room : String) : Effects :=
  { activityTouched := true,
    sent := [.chat message username profilePic room],
    stored := [], published := [], closedConn := false, raised := false }

/-- ChatConsumer._idle_watchdog wake interval: max(10, min(60, timeout)). -/
def chatIdleInterval (t : Int) : Int :=
  max 10 (min 60 t)

/-- Decision taken by one wake-up of an idle watchdog loop. -/
inductive WatchTick where
  | cont
  | close (code : Int)
deriving DecidableEq, Repr

/-- Body of one ChatConsumer._idle_watchdog wake-up (lines 172-177):
keep sleeping while now - last_activity is within the timeout, otherwise
close with the chat idle code and exit the loop. -/
def idleTick (idleTimeout now lastActivity : Int) : WatchTick :=
  if now - lastActivity ≤ idleTimeout then .cont else .close CHAT_CLOSE_IDLE_CODE

/-- One fixed-window rate-limit entry {count, reset} as stored under the
rl: cache key. -/
structure RlEntry where
  count : Int
  reset : Int
deriving DecidableEq, Repr

/-- The fixed-window step shared verbatim by ChatConsumer._rate_limited
(chat/consumers.py lines 198-212) and users.api._rate_limited
(users/api.py lines 73-87): first component is the deny decision
(True means rate limited), second the entry stored afterwards.
A read yielding no entry (cache miss, or the degraded store-unreachable
path) takes the first branch: write a fresh window and allow. -/
def rateLimited (limit window now : Int) (entry : Option RlEntry) :
    Bool × Option RlEntry :=
  match entry with
  | none => (false, some ⟨1, now + window⟩)
  | some d =>
    if d.reset ≤ now then (false, some ⟨1, now + window⟩)
    else if limit ≤ d.count then (true, some d)
    else (false, some ⟨d.count + 1, d.reset⟩)

/-- Run the rate limiter over a sequence of action timestamps, collecting
the deny decisions. -/
def runRl (limit window : Int) : Option RlEntry → List Int → List Bool × Option RlEntry
  | st, [] => ([], st)
  | st, t :: ts =>
    let s := rateLimited limit window t st
    let r := runRl limit window s.2 ts
    (s.1 :: r.1, r.2)

/-- One record of the authenticated presence dict (PresenceConsumer,
cache key presence:online), keyed by username. -/
structure AuthRec where
  count : Int
  profileImage : Option String
  lastSeen : Int
  graceUntil : Int
deriving DecidableEq, Repr

/-- One record of the guest presence dict (cache key presence:guests),
keyed by client IP. -/
structure GuestRec where
  count : Int
  lastSeen : Int
  graceUntil : Int
deriving DecidableEq, Repr

/-- PresenceConsumer.disconnect line 263: a close is graceful when the
close code is 1000 or 1001. -/
def isGraceful (code : Int) : Bool :=
  decide (code = 1000) || decide (code = 1001)

/-- PresenceConsumer._remove_user lines 349-369, on the stored dict. -/
def removeUser (grace : Int) (graceful : Bool) (now : Int) (user : String)
    (data : List (String × AuthRec)) : List (String × AuthRec) :=
  match lookupKey data user with
  | none => data
  | some entry =>
    let c := entry.count - 1
    if c ≤ 0 then
      if graceful = true ∨ grace ≤ 0 then popKey data user
      else setKey data user { entry with count := 0, lastSeen := now, graceUntil := now + grace }
    else setKey data user { entry with count := c, lastSeen := now, graceUntil := 0 }

/-- PresenceConsumer._remove_guest lines 412-434, on the stored dict.
The ip is the computed client discriminator (none when unresolved).
Unlike the user variant, a missing record still decrements from the
default 0, so a non-graceful removal of an absent ip writes a grace
record; the final empty-dict cache.delete is the same stored collection
as writing the empty dict, since every read defaults to the empty dict. -/
def removeGuest (grace : Int) (graceful : Bool) (now : Int) (ip : Option String)
    (data : List (String × GuestRec)) : List (String × GuestRec) :=
  match ip with
  | none => data
  | some ip =>
    let c := (match lookupKey data ip with | none => 0 | some cur => cur.count) - 1
    if c ≤ 0 then
      if graceful = true ∨ grace ≤ 0 then popKey data ip
      else setKey data ip ⟨0, now, now + grace⟩
    else setKey data ip ⟨c, now, 0⟩

/-- PresenceConsumer._add_guest lines 399-410, on the stored dict. -/
def addGuest (now : Int) (ip : Option String)
    (data : List (String × GuestRec)) : List (String × GuestRec) :=
  match ip with
  | none => data
  | some ip =>
    let c := match lookupKey data ip with | none => 0 | some cur => cur.count
    setKey data ip ⟨c + 1, now, 0⟩

/-- PresenceConsumer._touch_user lines 461-481: refresh last_seen, clear
grace, refresh the avatar when one resolved; a missing record is
recreated with count 1. -/
def touchUser (now : Int) (imageUrl : Option String) (user : String)
    (data : List (String × AuthRec)) : List (String × AuthRec) :=
  match lookupKey data user with
  | none => setKey data user ⟨1, imageUrl, now, 0⟩
  | some cur =>
    setKey data user
      { cur with
        lastSeen := now
        graceUntil := 0
        profileImage := match imageUrl with | some u => some u | none => cur.profileImage }

/-- PresenceConsumer._touch_guest lines 483-497: same shape for guests,
keyed by the ip discriminator (none means no-op). -/
def touchGuest (now : Int) (ip : Option String)
    (data : List (String × GuestRec)) : List (String × GuestRec) :=
  match ip with
  | none => data
  | some ip =>
    match lookupKey data ip with
    | none => setKey data ip ⟨1, now, 0⟩
    | some cur => setKey data ip ⟨cur.count, now, 0⟩

/-- The keep condition of the _get_online read loop (lines 383-391),
including the Python truthiness test on grace_until. -/
def keepAuth (ttl now : Int) (r : AuthRec) : Bool :=
  (decide (0 < r.count) && decide (now - r.lastSeen ≤ ttl)) ||
    (decide (r.count ≤ 0) && decide (r.graceUntil ≠ 0) &&
      decide (now < r.graceUntil) && decide (now - r.lastSeen ≤ ttl))

/-- The keep condition of the _get_guest_count read loop (lines 448-456). -/
def keepGuest (ttl now : Int) (r : GuestRec) : Bool :=
  (decide (0 < r.count) && decide (now - r.lastSeen ≤ ttl)) ||
    (decide (r.count ≤ 0) && decide (r.graceUntil ≠ 0) &&
      decide (now < r.graceUntil) && decide (now - r.lastSeen ≤ ttl))

/-- PresenceConsumer._get_online lines 371-397: the cleaned dict replaces
the stored one (the code skips the write when nothing was purged, which
stores the same collection), and the returned online list projects the
kept records to username and profileImage. -/
def getOnline (ttl now : Int) (data : List (String × AuthRec)) :
    List (String × Option String) × List (String × AuthRec) :=
  let cleaned := data.filter (fun p => keepAuth ttl now p.2)
  (cleaned.map (fun p => (p.1, p.2.profileImage)), cleaned)

/-- PresenceConsumer._get_guest_count lines 436-459: same lazy cleanup on
the guest dict; the broadcast value is the number of kept records. -/
def getGuestCount (ttl now : Int) (data : List (String × GuestRec)) :
    Nat × List (String × GuestRec) :=
  let cleaned := data.filter (fun p => keepGuest ttl now p.2)
  (cleaned.length, cleaned)

/-! Association-list (Python dict) lemmas shared by the claim theorems. -/

theorem lookupKey_setKey_self {α : Type} (d : List (String × α)) (k : String) (v : α) :
    lookupKey (setKey d k v) k = some v := by
  induction d with
  | nil => simp [setKey, lookupKey]
  | cons p rest ih =>
    obtain ⟨a, b⟩ := p
    by_cases h : a = k
    · simp [setKey, h, lookupKey]
    · simp [setKey, h, lookupKey, ih]

theorem lookupKey_setKey_ne {α : Type} (d : List (String × α)) (k k2 : String) (v : α)
    (h : k2 ≠ k) : lookupKey (setKey d k v) k2 = lookupKey d k2 := by
  induction d with
  | nil =>
    have hk : ¬ k = k2 := fun he => h he.symm
    simp [setKey, lookupKey, hk]
  | cons p rest ih =>
    obtain ⟨a, b⟩ := p
    by_cases ha : a = k
    · subst ha
      have hk : ¬ a = k2 := fun he => h he.symm
      simp [setKey, lookupKey, hk]
    · simp [setKey, ha, lookupKey, ih]

theorem lookupKey_eq_none_of_not_mem {α : Type} {d : List (String × α)} {k : String}
    (h : k ∉ d.map Prod.fst) : lookupKey d k = none := by
  induction d with
  | nil => simp [lookupKey]
  | cons p rest ih =>
    obtain ⟨a, b⟩ := p
    simp only [List.map_cons, List.mem_cons, not_or] at h
    have ha : a ≠ k := fun he => h.1 he.symm
    simp [lookupKey, ha, ih h.2]

theorem lookupKey_popKey_self {α : Type} {d : List (String × α)} {k : String}
    (h : (d.map Prod.fst).Nodup) : lookupKey (popKey d k) k = none := by
  induction d with
  | nil => simp [popKey, lookupKey]
  | cons p rest ih =>
    obtain ⟨a, b⟩ := p
    simp only [List.map_cons, List.nodup_cons] at h
    by_cases hk : a = k
    · subst hk
      simp only [popKey, if_pos rfl]
      exact lookupKey_eq_none_of_not_mem h.1
    · simp [popKey, hk, lookupKey, ih h.2]

/-- Claim C1: the presence read paths (_get_online and _get_guest_count)
keep a record iff count is positive and within TTL, or count is
non-positive, grace has not yet expired (grace_until > now), and within
TTL; every record failing both is purged from the stored collection by
that read, and the broadcast values are exactly the kept identities
(username with avatar) resp. the number of kept guest records.  The
Python truthiness guard on grace_until is implied by grace_until > now
for any non-negative clock. -/
theorem C1_read_path_cleanup (ttl now : Int) (hnow : 0 ≤ now)
    (data : List (String × AuthRec)) (gdata : List (String × GuestRec))
    (u : String) (r : AuthRec) (ip : String) (g : GuestRec) :
    ((u, r) ∈ (getOnline ttl now data).2 ↔
      ((u, r) ∈ data ∧
        ((0 < r.count ∧ now - r.lastSeen ≤ ttl) ∨
          (r.count ≤ 0 ∧ now < r.graceUntil ∧ now - r.lastSeen ≤ ttl)))) ∧
    ((ip, g) ∈ (getGuestCount ttl now gdata).2 ↔
      ((ip, g) ∈ gdata ∧
        ((0 < g.count ∧ now - g.lastSeen ≤ ttl) ∨
          (g.count ≤ 0 ∧ now < g.graceUntil ∧ now - g.lastSeen ≤ ttl)))) ∧
    ((getOnline ttl now data).1 =
      ((getOnline ttl now data).2).map (fun p => (p.1, p.2.profileImage))) ∧
    ((getGuestCount ttl now gdata).1 = ((getGuestCount ttl now gdata).2).length) := by
  refine ⟨?_, ?_, rfl, rfl⟩
  · rw [show (getOnline ttl now data).2 = data.filter (fun p => keepAuth ttl now p.2) from rfl,
      List.mem_filter]
    refine and_congr_right fun _ => ?_
    simp only [keepAuth, Bool.or_eq_true, Bool.and_eq_true, decide_eq_true_eq]
    constructor
    · intro h; omega
    · intro h; omega
  · rw [show (getGuestCount ttl now gdata).2 = gdata.filter (fun p => keepGuest ttl now p.2)
        from rfl,
      List.mem_filter]
    refine and_congr_right fun _ => ?_
    simp only [keepGuest, Bool.or_eq_true, Bool.and_eq_true, decide_eq_true_eq]
    constructor
    · intro h; omega
    · intro h; omega

/-- Witness for C1 at a concrete in-grace record: clock 10, a record with
count 0, last_seen 0, grace_until 12 is still reported by the read. -/
theorem C1_read_path_cleanup_witness :
    (0 : Int) ≤ 10 ∧
    (("a", (⟨0, none, 0, 12⟩ : AuthRec)) ∈
        (getOnline 90 10 [("a", (⟨0, none, 0, 12⟩ : AuthRec))]).2 ↔
      (("a", (⟨0, none, 0, 12⟩ : AuthRec)) ∈ [("a", (⟨0, none, 0, 12⟩ : AuthRec))] ∧
        ((0 < (0 : Int) ∧ (10 : Int) - 0 ≤ 90) ∨
          ((0 : Int) ≤ 0 ∧ (10 : Int) < 12 ∧ (10 : Int) - 0 ≤ 90)))) :=
  ⟨by decide,
    (C1_read_path_cleanup 90 10 (by decide)
      [("a", ⟨0, none, 0, 12⟩)] [] "a" ⟨0, none, 0, 12⟩ "ip" ⟨1, 0, 0⟩).1⟩

/-- Claim C2: disconnect of an identity present in the store decrements its
count; if the result is ≤ 0 the record is deleted when the close code is
graceful (1000 or 1001) or the grace setting is ≤ 0, and otherwise kept
with count 0, last_seen = now, grace_until = now + grace; if the result
is > 0 the record keeps the decremented count with last_seen = now and
grace_until = 0.  Both the authenticated and the guest removal paths
behave this way, and a close code is graceful exactly for 1000/1001. -/
theorem C2_presence_disconnect (grace now closeCode : Int) (user ip : String)
    (data : List (String × AuthRec)) (entry : AuthRec)
    (gdata : List (String × GuestRec)) (gentry : GuestRec)
    (hu : lookupKey data user = some entry)
    (hg : lookupKey gdata ip = some gentry)
    (hnd : (data.map Prod.fst).Nodup)
    (hgnd : (gdata.map Prod.fst).Nodup) :
    (∀ c, isGraceful c = true ↔ (c = 1000 ∨ c = 1001)) ∧
    (entry.count - 1 ≤ 0 → (isGraceful closeCode = true ∨ grace ≤ 0) →
      lookupKey (removeUser grace (isGraceful closeCode) now user data) user = none) ∧
    (entry.count - 1 ≤ 0 → isGraceful closeCode = false → 0 < grace →
      lookupKey (removeUser grace (isGraceful closeCode) now user data) user =
        some { entry with count := 0, lastSeen := now, graceUntil := now + grace }) ∧
    (0 < entry.count - 1 →
      lookupKey (removeUser grace (isGraceful closeCode) now user data) user =
        some { entry with count := entry.count - 1, lastSeen := now, graceUntil := 0 }) ∧
    (gentry.count - 1 ≤ 0 → (isGraceful closeCode = true ∨ grace ≤ 0) →
      lookupKey (removeGuest grace (isGraceful closeCode) now (some ip) gdata) ip = none) ∧
    (gentry.count - 1 ≤ 0 → isGraceful closeCode = false → 0 < grace →
      lookupKey (removeGuest grace (isGraceful closeCode) now (some ip) gdata) ip =
        some ⟨0, now, now + grace⟩) ∧
    (0 < gentry.count - 1 →
      lookupKey (removeGuest grace (isGraceful closeCode) now (some ip) gdata) ip =
        some ⟨gentry.count - 1, now, 0⟩) := by
  refine ⟨?_, ?_, ?_, ?_, ?_, ?_, ?_⟩
  · intro c
    simp [isGraceful]
  · intro h1 h2
    simp only [removeUser, hu, if_pos h1, if_pos h2]
    exact lookupKey_popKey_self hnd
  · intro h1 h2 h3
    have hne : ¬ (isGraceful closeCode = true ∨ grace ≤ 0) := by
      rintro (h | h)
      · rw [h2] at h; exact Bool.false_ne_true h
      · omega
    simp only [removeUser, hu, if_pos h1, if_neg hne]
    exact lookupKey_setKey_self ..
  · intro h1
    simp only [removeUser, hu, if_neg (by omega : ¬ entry.count - 1 ≤ 0)]
    exact lookupKey_setKey_self ..
  · intro h1 h2
    simp only [removeGuest, hg, if_pos h1, if_pos h2]
    exact lookupKey_popKey_self hgnd
  · intro h1 h2 h3
    have hne : ¬ (isGraceful closeCode = true ∨ grace ≤ 0) := by
      rintro (h | h)
      · rw [h2] at h; exact Bool.false_ne_true h
      · omega
    simp only [removeGuest, hg, if_pos h1, if_neg hne]
    exact lookupKey_setKey_self ..
  · intro h1
    simp only [removeGuest, hg, if_neg (by omega : ¬ gentry.count - 1 ≤ 0)]
    exact lookupKey_setKey_self ..

/-- Witness for C2: a sole connection (count 1) closing with graceful code
1000 removes the record immediately; guest record likewise. -/
theorem C2_presence_disconnect_witness :
    lookupKey [("u", (⟨1, none, 0, 0⟩ : AuthRec))] "u" = some (⟨1, none, 0, 0⟩ : AuthRec) ∧
    lookupKey (removeUser 5 (isGraceful 1000) 7 "u" [("u", (⟨1, none, 0, 0⟩ : AuthRec))]) "u" =
      none :=
  ⟨by decide,
    (C2_presence_disconnect 5 7 1000 "u" "g"
        [("u", ⟨1, none, 0, 0⟩)] ⟨1, none, 0, 0⟩ [("g", ⟨1, 0, 0⟩)] ⟨1, 0, 0⟩
        (by decide) (by decide) (by decide) (by decide)).2.1
      (by decide) (Or.inl (by decide))⟩

/-- Counterexample to claim C6: when the store read yields no record, the
limiter does not deny — it writes a fresh window {count 1, reset now +
window} and allows (returns False, i.e. not rate limited).  Shown at the
concrete defaults limit 10, window 60, now 100. -/
theorem C6_fail_closed_counterexample :
    rateLimited 10 60 100 none = (false, some ⟨1, 160⟩) := by
  decide

/-- Claim C6 as amended: when the rate-limit store read yields no record,
the limiter fails open — the action is allowed and a fresh entry
{count 1, reset: now + window} is written. -/
theorem C6_fail_open_on_missing_record (limit window now : Int) :
    rateLimited limit window now none = (false, some ⟨1, now + window⟩) := rfl

/-- Claim C10: guest presence operations with an unresolved client IP
(discriminator none) are no-ops on the stored guest collection, so such
a connection never changes the broadcast guest count. -/
theorem C10_guest_ip_none_noop (ttl grace now readNow : Int) (graceful : Bool)
    (data : List (String × GuestRec)) :
    addGuest now none data = data ∧
    removeGuest grace graceful now none data = data ∧
    touchGuest now none data = data ∧
    (getGuestCount ttl readNow (addGuest now none data)).1 =
      (getGuestCount ttl readNow data).1 := by
  exact ⟨rfl, rfl, rfl, rfl⟩

/-! Rate limiter sequencing lemmas. -/

theorem runRl_append (limit window : Int) (l1 l2 : List Int) (st : Option RlEntry) :
    runRl limit window st (l1 ++ l2) =
      ((runRl limit window st l1).1 ++
          (runRl limit window (runRl limit window st l1).2 l2).1,
        (runRl limit window (runRl limit window st l1).2 l2).2) := by
  induction l1 generalizing st with
  | nil => simp [runRl]
  | cons t l1 ih => simp [runRl, ih]

theorem runRl_all_allowed (limit window : Int) (ts : List Int) :
    ∀ (c r : Int), (∀ t ∈ ts, t < r) → 1 ≤ c → c + (ts.length : Int) ≤ limit →
      runRl limit window (some ⟨c, r⟩) ts =
        (List.replicate ts.length false, some ⟨c + (ts.length : Int), r⟩) := by
  induction ts with
  | nil => intro c r _ _ _; simp [runRl]
  | cons t ts ih =>
    intro c r hlt hc hle
    have ht : t < r := hlt t (by simp)
    have hlen : ((t :: ts).length : Int) = (ts.length : Int) + 1 := by
      simp
    have hstep : rateLimited limit window t (some ⟨c, r⟩) = (false, some ⟨c + 1, r⟩) := by
      simp only [rateLimited]
      rw [if_neg (by omega : ¬ r ≤ t), if_neg (by rw [hlen] at hle; omega : ¬ limit ≤ c)]
    have hrest := ih (c + 1) r (fun x hx => hlt x (by simp [hx])) (by omega)
      (by rw [hlen] at hle; omega)
    simp only [runRl, hstep, hrest, List.replicate_succ, List.length_cons]
    have hc2 : c + 1 + (ts.length : Int) = c + ((ts.length + 1 : Nat) : Int) := by
      push_cast
      ring
    rw [hc2]

/-- Claim C3: the rate limiter is the fixed-window algorithm — a missing
entry or an expired window writes {count 1, reset now + window} and
allows; a live window at the limit denies and leaves the entry
unchanged; a live window below the limit increments and allows.
Consequently, starting from no entry, N calls inside one window are all
allowed, the (N+1)-th call inside the window is denied with the entry at
{count N, reset t0 + window}, and a later call at or past the reset
succeeds again (the expired-window clause). -/
theorem C3_fixed_window_rate_limit (limit window now t0 tExtra : Int) (d : RlEntry)
    (N : Nat) (ts : List Int) :
    (rateLimited limit window now none = (false, some ⟨1, now + window⟩)) ∧
    (d.reset ≤ now →
      rateLimited limit window now (some d) = (false, some ⟨1, now + window⟩)) ∧
    (now < d.reset → limit ≤ d.count →
      rateLimited limit window now (some d) = (true, some d)) ∧
    (now < d.reset → d.count < limit →
      rateLimited limit window now (some d) = (false, some ⟨d.count + 1, d.reset⟩)) ∧
    (1 ≤ N → ts.length = N - 1 → (∀ t ∈ ts, t < t0 + window) → tExtra < t0 + window →
      runRl (N : Int) window none (t0 :: ts ++ [tExtra]) =
        (List.replicate N false ++ [true], some ⟨(N : Int), t0 + window⟩)) := by
  refine ⟨rfl, ?_, ?_, ?_, ?_⟩
  · intro h
    simp only [rateLimited]
    rw [if_pos h]
  · intro h1 h2
    simp only [rateLimited]
    rw [if_neg (by omega : ¬ d.reset ≤ now), if_pos h2]
  · intro h1 h2
    simp only [rateLimited]
    rw [if_neg (by omega : ¬ d.reset ≤ now), if_neg (by omega : ¬ limit ≤ d.count)]
  · intro hN hlen hts hextra
    have hfirst : runRl (N : Int) window none (t0 :: (ts ++ [tExtra])) =
        (false :: (runRl (N : Int) window (some ⟨1, t0 + window⟩) (ts ++ [tExtra])).1,
          (runRl (N : Int) window (some ⟨1, t0 + window⟩) (ts ++ [tExtra])).2) := by
      simp [runRl, rateLimited]
    have hmid := runRl_all_allowed (N : Int) window ts 1 (t0 + window) hts (by omega)
      (by rw [hlen]; omega)
    have hcount : (1 : Int) + ((ts.length : Nat) : Int) = (N : Int) := by
      rw [hlen]; omega
    have hlast : rateLimited (N : Int) window tExtra (some ⟨(N : Int), t0 + window⟩) =
        (true, some ⟨(N : Int), t0 + window⟩) := by
      simp only [rateLimited]
      rw [if_neg (by omega : ¬ t0 + window ≤ tExtra), if_pos (by omega : (N : Int) ≤ (N : Int))]
    calc runRl (N : Int) window none (t0 :: ts ++ [tExtra])
        = (false :: (runRl (N : Int) window (some ⟨1, t0 + window⟩) (ts ++ [tExtra])).1,
            (runRl (N : Int) window (some ⟨1, t0 + window⟩) (ts ++ [tExtra])).2) := hfirst
      _ = (List.replicate N false ++ [true], some ⟨(N : Int), t0 + window⟩) := by
          rw [runRl_append]
          rw [hmid, hcount]
          simp only [runRl, hlast]
          have hNs : N = ts.length + 1 := by omega
          rw [hNs]
          simp [List.replicate_succ]

/-- Witness for C3 at limit 2, window 10: calls at 0 and 1 are allowed, the
third call inside the window (time 2) is denied; an expired-window read
at d = {count 2, reset 10}, now 10 resets to {count 1, reset 20}. -/
theorem C3_fixed_window_rate_limit_witness :
    runRl ((2 : Nat) : Int) 10 none ((0 : Int) :: [1] ++ [2]) =
      (List.replicate 2 false ++ [true], some ⟨((2 : Nat) : Int), 0 + 10⟩) ∧
    rateLimited 2 10 10 (some ⟨2, 10⟩) = (false, some ⟨1, 10 + 10⟩) :=
  ⟨(C3_fixed_window_rate_limit 2 10 0 0 2 ⟨2, 10⟩ 2 [1]).2.2.2.2
      (by decide) (by decide) (by decide) (by decide),
    (C3_fixed_window_rate_limit 2 10 10 0 2 ⟨2, 10⟩ 2 [1]).2.1 (by decide)⟩

/-- Counterexample to claim C9: a presence touch on an identity with no
stored record does change the count — it creates a record with count 1
(shown for the authenticated touch on the empty store). -/
theorem C9_touch_count_counterexample :
    (lookupKey (touchUser 5 none "u" ([] : List (String × AuthRec))) "u").map AuthRec.count ≠
      (lookupKey ([] : List (String × AuthRec)) "u").map AuthRec.count := by
  decide

/-- Claim C9 as amended: a presence touch on an identity with an existing
record refreshes last_seen to now and clears grace (grace_until = 0)
without changing its count (the avatar is refreshed only when one
resolved); a touch on an identity with no stored record creates one with
count 1, last_seen = now, grace_until = 0; records of other identities
are untouched.  The guest touch behaves the same on the guest store. -/
theorem C9_touch_amended (now : Int) (img : Option String) (user other ip oip : String)
    (data : List (String × AuthRec)) (gdata : List (String × GuestRec)) :
    (∀ cur, lookupKey data user = some cur →
      lookupKey (touchUser now img user data) user =
        some ⟨cur.count, (match img with | some u => some u | none => cur.profileImage),
          now, 0⟩) ∧
    (lookupKey data user = none →
      lookupKey (touchUser now img user data) user = some ⟨1, img, now, 0⟩) ∧
    (other ≠ user → lookupKey (touchUser now img user data) other = lookupKey data other) ∧
    (∀ gcur, lookupKey gdata ip = some gcur →
      lookupKey (touchGuest now (some ip) gdata) ip = some ⟨gcur.count, now, 0⟩) ∧
    (lookupKey gdata ip = none →
      lookupKey (touchGuest now (some ip) gdata) ip = some ⟨1, now, 0⟩) ∧
    (oip ≠ ip → lookupKey (touchGuest now (some ip) gdata) oip = lookupKey gdata oip) := by
  refine ⟨?_, ?_, ?_, ?_, ?_, ?_⟩
  · intro cur hcur
    simp only [touchUser, hcur]
    exact lookupKey_setKey_self ..
  · intro hnone
    simp only [touchUser, hnone]
    exact lookupKey_setKey_self ..
  · intro hne
    rcases hcur : lookupKey data user with _ | cur
    · simp only [touchUser, hcur]
      exact lookupKey_setKey_ne _ _ _ _ hne
    · simp only [touchUser, hcur]
      exact lookupKey_setKey_ne _ _ _ _ hne
  · intro gcur hcur
    simp only [touchGuest, hcur]
    exact lookupKey_setKey_self ..
  · intro hnone
    simp only [touchGuest, hnone]
    exact lookupKey_setKey_self ..
  · intro hne
    rcases hcur : lookupKey gdata ip with _ | gcur
    · simp only [touchGuest, hcur]
      exact lookupKey_setKey_ne _ _ _ _ hne
    · simp only [touchGuest, hcur]
      exact lookupKey_setKey_ne _ _ _ _ hne

/-- Witness for C9 (amended): touching a stored record with count 2 and a
stale grace mark keeps count 2 while refreshing last_seen to 5 and
clearing grace. -/
theorem C9_touch_amended_witness :
    lookupKey [("u", (⟨2, none, 0, 9⟩ : AuthRec))] "u" = some (⟨2, none, 0, 9⟩ : AuthRec) ∧
    lookupKey (touchUser 5 none "u" [("u", (⟨2, none, 0, 9⟩ : AuthRec))]) "u" =
      some (⟨2, none, 5, 0⟩ : AuthRec) :=
  ⟨by decide,
    (C9_touch_amended 5 none "u" "v" "i" "j" [("u", ⟨2, none, 0, 9⟩)] []).1
      ⟨2, none, 0, 9⟩ (by decide)⟩

/-- Every path of the receive handler touches the activity timestamp (it is
refreshed at entry) and never closes the connection. -/
theorem receiveChat_flags (maxLen : Int) (authed limited : Bool)
    (username profileUrl room : String) (frame : Option Json) :
    (receiveChat maxLen authed limited username profileUrl room frame).activityTouched = true ∧
    (receiveChat maxLen authed limited username profileUrl room frame).closedConn = false := by
  rcases frame with _ | j
  · exact ⟨rfl, rfl⟩
  rcases j with _ | b | n | s | es | fields
  · exact ⟨rfl, rfl⟩
  · exact ⟨rfl, rfl⟩
  · exact ⟨rfl, rfl⟩
  · exact ⟨rfl, rfl⟩
  · exact ⟨rfl, rfl⟩
  rcases hv : jsonGet fields "message" (Json.str "") with _ | b | n | raw | es | fs <;>
    simp only [receiveChat, hv]
  · exact ⟨rfl, rfl⟩
  · exact ⟨rfl, rfl⟩
  · exact ⟨rfl, rfl⟩
  · split
    · exact ⟨rfl, rfl⟩
    · split
      · exact ⟨rfl, rfl⟩
      · split
        · exact ⟨rfl, rfl⟩
        · split
          · exact ⟨rfl, rfl⟩
          · exact ⟨rfl, rfl⟩
  · exact ⟨rfl, rfl⟩
  · exact ⟨rfl, rfl⟩

/-- Claim C4 (code bug): the receive handler silently ignores frames the
claim describes — except that a valid-JSON non-object frame (here the
array []) makes the message-field access on line 112 raise
AttributeError before any effect instruction runs: nothing is sent,
stored or published, but the exception escapes the handler uncaught
(raised), so the server terminates the connection instead of keeping it
open as the claim requires. -/
theorem C4_nonobject_frame_crash :
    receiveChat 1000 true false "u" "purl" "r" (some (Json.arr [])) =
      { activityTouched := true, sent := [], stored := [], published := [],
        closedConn := false, raised := true } := rfl

/-- Claim C5: connect policy — the public slug is always accepted (joined to
its room group); a pattern-valid slug with an authenticated identity is
accepted; a non-public slug failing the pattern is closed immediately
(before any authentication check); a pattern-valid non-public slug
requested by an unauthenticated identity is refused immediately. -/
theorem C5_connect_policy (sha1hex : String → String) (authed : Bool) (room : String) :
    (room = PUBLIC_ROOM_SLUG →
      chatConnect sha1hex authed room = .accepted (groupName sha1hex room)) ∧
    (isValidRoomSlug room = true → authed = true →
      chatConnect sha1hex authed room = .accepted (groupName sha1hex room)) ∧
    (room ≠ PUBLIC_ROOM_SLUG → isValidRoomSlug room = false →
      chatConnect sha1hex authed room = .closedConn) ∧
    (room ≠ PUBLIC_ROOM_SLUG → isValidRoomSlug room = true → authed = false →
      chatConnect sha1hex authed room = .refusedConn) := by
  refine ⟨?_, ?_, ?_, ?_⟩
  · intro h
    have h1 : ¬ (room ≠ PUBLIC_ROOM_SLUG ∧ isValidRoomSlug room = false) :=
      fun hc => hc.1 h
    have h2 : ¬ (authed = false ∧ room ≠ PUBLIC_ROOM_SLUG) := fun hc => hc.2 h
    simp only [chatConnect]
    rw [if_neg h1, if_neg h2]
  · intro hval hauth
    have h1 : ¬ (room ≠ PUBLIC_ROOM_SLUG ∧ isValidRoomSlug room = false) := by
      rintro ⟨-, hc⟩
      rw [hval] at hc
      exact Bool.false_ne_true hc.symm
    have h2 : ¬ (authed = false ∧ room ≠ PUBLIC_ROOM_SLUG) := by
      rintro ⟨hc, -⟩
      rw [hauth] at hc
      exact Bool.false_ne_true hc.symm
    simp only [chatConnect]
    rw [if_neg h1, if_neg h2]
  · intro hne hval
    simp only [chatConnect]
    rw [if_pos ⟨hne, hval⟩]
  · intro hne hval hauth
    have h1 : ¬ (room ≠ PUBLIC_ROOM_SLUG ∧ isValidRoomSlug room = false) := by
      rintro ⟨-, hc⟩
      rw [hval] at hc
      exact Bool.false_ne_true hc.symm
    simp only [chatConnect]
    rw [if_neg h1, if_pos ⟨hauth, hne⟩]

/-- Witness for C5: the public room accepted for an unauthenticated client,
a malformed slug closed, a valid private slug refused to a guest. -/
theorem C5_connect_policy_witness :
    chatConnect (fun _ => "") false "public" =
      ConnectResult.accepted (groupName (fun _ => "") "public") ∧
    chatConnect (fun _ => "") true "a!" = ConnectResult.closedConn ∧
    chatConnect (fun _ => "") false "room-1" = ConnectResult.refusedConn :=
  ⟨(C5_connect_policy (fun _ => "") false "public").1 rfl,
    (C5_connect_policy (fun _ => "") true "a!").2.2.1 (by decide) (by decide),
    (C5_connect_policy (fun _ => "") false "room-1").2.2.2 (by decide) (by decide) rfl⟩

/-- Claim C8: the chat idle watchdog wakes every max(10, min(60, T))
seconds; a wake-up closes the connection iff now - last_activity
exceeds T, with the chat idle close code 4001, which differs from the
presence idle code 4000 and from the graceful codes 1000/1001; a
wake-up within the timeout never closes; and activity is refreshed both
by inbound client frames (every receive path) and by outbound broadcast
delivery (the chat_message handler). -/
theorem C8_idle_watchdog (t now lastA maxLen : Int) (authed limited : Bool)
    (u p r m un pp rm : String) (frame : Option Json) :
    chatIdleInterval t = max 10 (min 60 t) ∧
    (0 < t →
      (idleTick t now lastA = WatchTick.close CHAT_CLOSE_IDLE_CODE ↔ t < now - lastA)) ∧
    (now - lastA ≤ t → idleTick t now lastA = WatchTick.cont) ∧
    (CHAT_CLOSE_IDLE_CODE ≠ PRESENCE_CLOSE_IDLE_CODE ∧
      CHAT_CLOSE_IDLE_CODE ≠ 1000 ∧ CHAT_CLOSE_IDLE_CODE ≠ 1001) ∧
    (receiveChat maxLen authed limited u p r frame).activityTouched = true ∧
    (onChatMessage m un pp rm).activityTouched = true := by
  refine ⟨rfl, ?_, ?_, ⟨by decide, by decide, by decide⟩,
    (receiveChat_flags maxLen authed limited u p r frame).1, rfl⟩
  · intro ht
    constructor
    · intro hc
      by_contra hnot
      have hle : now - lastA ≤ t := by omega
      unfold idleTick at hc
      rw [if_pos hle] at hc
      simp at hc
    · intro hgt
      unfold idleTick
      rw [if_neg (by omega : ¬ now - lastA ≤ t)]
  · intro hle
    unfold idleTick
    rw [if_pos hle]

/-- Witness for C8 at T = 60: a wake-up at now = 100 with last activity 0
closes with code 4001; a wake-up at now = 50 keeps the loop alive. -/
theorem C8_idle_watchdog_witness :
    (0 : Int) < 60 ∧
    (idleTick 60 100 0 = WatchTick.close CHAT_CLOSE_IDLE_CODE ↔ (60 : Int) < 100 - 0) ∧
    idleTick 60 50 0 = WatchTick.cont :=
  ⟨by decide,
    (C8_idle_watchdog 60 100 0 5 true false "u" "p" "r" "m" "un" "pp" "rm" none).2.1
      (by decide),
    (C8_idle_watchdog 60 50 0 5 true false "u" "p" "r" "m" "un" "pp" "rm" none).2.2.1
      (by decide)⟩

/-! Length bounds for the slug normalization pipeline. -/

theorem dropWhileLengthLe (p : Char → Bool) (l : List Char) :
    (l.dropWhile p).length ≤ l.length := by
  induction l with
  | nil => simp
  | cons c rest ih =>
    by_cases h : p c
    · simp only [List.dropWhile_cons, if_pos h, List.length_cons]
      omega
    · simp [List.dropWhile_cons, if_neg h]

theorem stripBothLengthLe (p : Char → Bool) (l : List Char) :
    (stripBoth p l).length ≤ l.length := by
  unfold stripBoth
  have h1 := dropWhileLengthLe p l
  have h2 := dropWhileLengthLe p (l.dropWhile p).reverse
  simp only [List.length_reverse] at h2 ⊢
  omega

theorem collapseGoLengthLe (b : Bool) (l : List Char) :
    (collapseGo b l).length ≤ l.length := by
  induction l generalizing b with
  | nil => simp [collapseGo]
  | cons c rest ih =>
    have h1 := ih true
    have h2 := ih false
    by_cases h : (c = '-' || isPySpace c) = true
    · rcases b with _ | _ <;> simp [collapseGo, h] <;> omega
    · simp [collapseGo, h]
      omega

theorem slugifyListLengthLe (l : List Char) :
    (slugifyList l).length ≤ l.length := by
  unfold slugifyList
  refine le_trans (stripBothLengthLe _ _) (le_trans (collapseGoLengthLe _ _) ?_)
  refine le_trans (List.length_filter_le _ _) ?_
  rw [List.length_map]
  exact List.length_filter_le _ _

theorem matchesSlugPatternLength {s : String} (h : matchesSlugPattern s = true) :
    s.data.length ≤ 51 := by
  unfold matchesSlugPattern at h
  rw [Bool.or_eq_true] at h
  rcases h with h | h
  · unfold slugCore at h
    simp only [Bool.and_eq_true, decide_eq_true_eq] at h
    omega
  · rcases hl : s.data.getLast? with _ | c
    · rw [hl] at h
      simp at h
    · rw [hl] at h
      simp only [Bool.and_eq_true, decide_eq_true_eq] at h
      unfold slugCore at h
      simp only [Bool.and_eq_true, decide_eq_true_eq] at h
      have hne : s.data ≠ [] := by
        intro he
        rw [he] at hl
        simp at hl
      have hlen : s.data.dropLast.length = s.data.length - 1 := List.length_dropLast _
      have h0 : s.data.length ≠ 0 := fun he => hne (List.length_eq_zero.mp he)
      omega

theorem strMkLength (l : List Char) : (String.mk l).length = l.length := rfl

/-- Claim C7: the slug-to-group mapping is a function of the slug alone
(deterministic); it uses the slugify normalization, falls back to the
40-hex-character stable hash of the original slug when normalization is
empty, and — on every slug the connect path can pass it (the public slug
or a pattern-valid slug) — the resulting group identifier has length at
most 80. -/
theorem C7_group_identifier (sha1hex : String → String) (room : String)
    (hlen : ∀ x, (sha1hex x).length = 40)
    (hroom : room = PUBLIC_ROOM_SLUG ∨ matchesSlugPattern room = true) :
    (∀ r2, r2 = room → groupName sha1hex r2 = groupName sha1hex room) ∧
    (slugifyStr room ≠ "" →
      groupName sha1hex room = "chat_" ++ String.mk ((slugifyStr room).data.take 80)) ∧
    (slugifyStr room = "" →
      groupName sha1hex room = "chat_" ++ String.mk ((sha1hex room).data.take 80)) ∧
    (groupName sha1hex room).length ≤ 80 := by
  have hgen : ∀ n2 : String, ("chat_" ++ String.mk (n2.data.take 80)).length =
      5 + min 80 n2.data.length := by
    intro n2
    show ("chat_".data ++ List.take 80 n2.data).length = 5 + min 80 n2.data.length
    rw [List.length_append, List.length_take]
    have h5 : "chat_".data.length = 5 := rfl
    rw [h5]
  refine ⟨fun r2 h => by rw [h], ?_, ?_, ?_⟩
  · intro hne
    simp only [groupName]
    rw [if_neg hne]
  · intro he
    simp only [groupName]
    rw [if_pos he]
  · simp only [groupName]
    by_cases he : slugifyStr room = ""
    · rw [if_pos he, hgen]
      have h40 : (sha1hex room).data.length = 40 := hlen room
      rw [h40]
      omega
    · rw [if_neg he, hgen]
      have hx : (slugifyStr room).data.length ≤ 51 := by
        have hs : (slugifyStr room).data.length ≤ room.data.length :=
          slugifyListLengthLe room.data
        rcases hroom with h | h
        · subst h
          exact le_trans hs (by decide)
        · exact le_trans hs (matchesSlugPatternLength h)
      have hmin : min 80 ((slugifyStr room).data.length) ≤ 51 :=
        le_trans (min_le_right _ _) hx
      omega

/-- Witness for C7 at the public slug and a constant 40-character hash
stand-in. -/
theorem C7_group_identifier_witness :
    (∀ x : String,
      ((fun _ : String => "0123456789abcdef0123456789abcdef01234567") x).length = 40) ∧
    (groupName (fun _ : String => "0123456789abcdef0123456789abcdef01234567") "public").length
      ≤ 80 :=
  ⟨fun _ => rfl,
    (C7_group_identifier (fun _ : String => "0123456789abcdef0123456789abcdef01234567")
      "public" (fun _ => rfl) (Or.inl rfl)).2.2.2⟩

end ChatCore
